import Mathlib

/-!
Shallow embedding of the driver-app core:
lib/fsm-types.ts (race-state tables and the trip-status compatibility map) and
components/queue-qr-scanner.tsx (queue scan protocol state and handlers).
-/

namespace DriverApp

/-! Embedding of lib/fsm-types.ts -/

/-- Server race states, from the RaceState union type in lib/fsm-types.ts. -/
inductive RaceState
  | RACE_OFFLINE
  | RACE_WAITING_START
  | RACE_BOARDING
  | RACE_IN_TRANSIT
  | RACE_ARRIVED_STOP
  | RACE_FINISHED
deriving DecidableEq, Repr

/-- Transition actions, from the TransitionAction union type in lib/fsm-types.ts. -/
inductive TransitionAction
  | start_shift
  | start_trip
  | depart_stop
  | arrive_stop
  | start_boarding
  | finish_trip
  | none
deriving DecidableEq, Repr

/-- Button configuration, from the ButtonConfig interface in lib/fsm-types.ts.
The optional stopName field is an Option. -/
structure ButtonConfig where
  label : String
  action : TransitionAction
  enabled : Bool
  stopName : Option String := Option.none
deriving DecidableEq, Repr

/-- Panel visibility record, from the PanelVisibility interface in lib/fsm-types.ts. -/
structure PanelVisibility where
  mainButton : Bool
  queue : Bool
  reservation : Bool
  cash : Bool
deriving DecidableEq, Repr

/-- The TRIP_STATUS_TO_RACE_STATE record of lib/fsm-types.ts. In TS it is a
Record keyed by string; indexing with a key outside the six listed ones yields
undefined, embedded here as a none result. -/
def TRIP_STATUS_TO_RACE_STATE : String → Option RaceState
  | "PREP_IDLE" => some RaceState.RACE_OFFLINE
  | "PREP_TIMER" => some RaceState.RACE_WAITING_START
  | "BOARDING" => some RaceState.RACE_BOARDING
  | "ROUTE_READY" => some RaceState.RACE_ARRIVED_STOP
  | "IN_ROUTE" => some RaceState.RACE_IN_TRANSIT
  | "FINISHED" => some RaceState.RACE_FINISHED
  | _ => Option.none

/-- The six legacy trip-status strings that key TRIP_STATUS_TO_RACE_STATE. -/
def legacyVocabulary : List String :=
  ["PREP_IDLE", "PREP_TIMER", "BOARDING", "ROUTE_READY", "IN_ROUTE", "FINISHED"]

/-- Error vocabulary of the trip-status adapter as named by the specification. -/
inductive AdapterError
  | unknownStatus
deriving DecidableEq, Repr

/-- The adapter reading of the TRIP_STATUS_TO_RACE_STATE record, as the
specification phrases it: a hit is returned, a missing key (undefined in TS)
is reported as an UnknownStatus error value. -/
def toRaceState (s : String) : Except AdapterError RaceState :=
  match TRIP_STATUS_TO_RACE_STATE s with
  | some r => Except.ok r
  | Option.none => Except.error AdapterError.unknownStatus

/-- The RACE_STATE_TO_BUTTON record of lib/fsm-types.ts, keyed exhaustively by
RaceState, hence a total function. -/
def RACE_STATE_TO_BUTTON : RaceState → ButtonConfig
  | RaceState.RACE_OFFLINE =>
      { label := "Выйти на линию", action := TransitionAction.start_shift, enabled := true }
  | RaceState.RACE_WAITING_START =>
      { label := "Начать рейс", action := TransitionAction.start_trip, enabled := true }
  | RaceState.RACE_BOARDING =>
      { label := "Отправиться", action := TransitionAction.depart_stop, enabled := true }
  | RaceState.RACE_IN_TRANSIT =>
      { label := "Прибыл", action := TransitionAction.arrive_stop, enabled := true }
  | RaceState.RACE_ARRIVED_STOP =>
      { label := "Начать посадку", action := TransitionAction.start_boarding, enabled := true }
  | RaceState.RACE_FINISHED =>
      { label := "Завершить рейс", action := TransitionAction.finish_trip, enabled := true }

/-- The RACE_STATE_TO_PANELS record of lib/fsm-types.ts, keyed exhaustively by
RaceState, hence a total function. -/
def RACE_STATE_TO_PANELS : RaceState → PanelVisibility
  | RaceState.RACE_OFFLINE =>
      { mainButton := true, queue := false, reservation := false, cash := false }
  | RaceState.RACE_WAITING_START =>
      { mainButton := true, queue := false, reservation := false, cash := false }
  | RaceState.RACE_BOARDING =>
      { mainButton := true, queue := true, reservation := true, cash := true }
  | RaceState.RACE_IN_TRANSIT =>
      { mainButton := true, queue := false, reservation := false, cash := true }
  | RaceState.RACE_ARRIVED_STOP =>
      { mainButton := true, queue := true, reservation := true, cash := true }
  | RaceState.RACE_FINISHED =>
      { mainButton := true, queue := false, reservation := false, cash := false }

/-- The non-none transition actions, i.e. the intended codomain of the
action table. -/
def nonNoneActions : List TransitionAction :=
  [TransitionAction.start_shift, TransitionAction.start_trip,
   TransitionAction.depart_stop, TransitionAction.arrive_stop,
   TransitionAction.start_boarding, TransitionAction.finish_trip]

/-! Embedding of components/queue-qr-scanner.tsx -/

/-- Payment confirmation payload, from the qrData field of the QueuePassenger
interface. -/
structure QRData where
  sum : Int
  recipient : String
  created_at : String
deriving DecidableEq, Repr

/-- A queued passenger, from the QueuePassenger interface. The optional
booleans scanned and qrError are embedded as Bool (undefined and false are
interchangeable in every truthiness test the component performs). -/
structure QueuePassenger where
  id : Int
  name : String
  queuePosition : Int
  isFirst : Bool
  count : Int
  ticketCount : Int
  orderNumber : Int
  scanned : Bool
  qrError : Bool
  qrData : Option QRData
deriving DecidableEq, Repr

/-- The tri-state scan status named by the specification. -/
inductive ScanStatus
  | Pending
  | Scanned
  | Error
deriving DecidableEq, Repr

/-- The tri-state reading of the two flag fields, matching the precedence the
component uses when rendering (qrError checked first, then scanned). -/
def QueuePassenger.scanStatus (p : QueuePassenger) : ScanStatus :=
  if p.qrError then ScanStatus.Error
  else if p.scanned then ScanStatus.Scanned
  else ScanStatus.Pending

/-- The component state held in the three useState hooks of QueueQRScanner:
showScanner, currentScanId, scanLocked; plus the passengers list, which the
component receives as a prop and replaces wholesale through onUpdate. -/
structure ScannerState where
  passengers : List QueuePassenger
  showScanner : Bool
  currentScanId : Option Int
  scanLocked : Bool
deriving DecidableEq, Repr

/-- Predicate used by handleStartScan to pick the next passenger:
not scanned and not in QR error. -/
def isNextScannable (p : QueuePassenger) : Bool :=
  !p.scanned && !p.qrError

/-- Observable outcome of a scan-start attempt, corresponding to the
logFSMEvent calls and the UI gate on the scan button. -/
inductive StartScanResult
  | blockedUi
  | blockedPreparationNotStarted
  | blockedNoPassengers
  | started (passengerId : Int)
deriving DecidableEq, Repr

/-- The handleStartScan handler of queue-qr-scanner.tsx. -/
def handleStartScan (disabled : Bool) (s : ScannerState) : ScannerState × StartScanResult :=
  if disabled then (s, StartScanResult.blockedPreparationNotStarted)
  else
    match s.passengers.find? isNextScannable with
    | Option.none => (s, StartScanResult.blockedNoPassengers)
    | some nextPassenger =>
        ({ s with
            currentScanId := some nextPassenger.id
            scanLocked := true
            showScanner := true },
         StartScanResult.started nextPassenger.id)

/-- The render condition guarding the accept and reject buttons: some
passenger is scanned with qrData present and no QR error; while such a
passenger exists the main scan button is not rendered. -/
def hasPendingDecision (s : ScannerState) : Bool :=
  s.passengers.any (fun p => p.scanned && p.qrData.isSome && !p.qrError)

/-- The main scan button of the component is rendered only when no
accept-or-reject decision is pending, and is enabled only when neither the
disabled prop nor scanLocked holds. -/
def scanButtonAvailable (disabled : Bool) (s : ScannerState) : Bool :=
  !hasPendingDecision s && !(disabled || s.scanLocked)

/-- The scan-start operation as exposed by the UI: the click reaches
handleStartScan only when the scan button is rendered and enabled. -/
def startScan (disabled : Bool) (s : ScannerState) : ScannerState × StartScanResult :=
  if scanButtonAvailable disabled s then handleStartScan disabled s
  else (s, StartScanResult.blockedUi)

/-- The recipient string computed by handleScanSuccess from the language prop. -/
def recipientFor (language : String) : String :=
  if language == "ru" then "Водитель Иванов И.И." else "Driver Ivanov I."

/-- The handleScanSuccess handler of queue-qr-scanner.tsx. The JS guard
if (bang currentScanId) return is falsy-true both for null and for the
number 0, so both are modelled as early returns. The now argument stands for
new Date().toISOString(). -/
def handleScanSuccess (language now : String) (s : ScannerState) : ScannerState :=
  match s.currentScanId with
  | Option.none => s
  | some cid =>
    if cid == 0 then s
    else
      match s.passengers.find? (fun p => p.id == cid) with
      | Option.none => s
      | some passenger =>
          let mockQRData : QRData :=
            { sum := passenger.ticketCount * 320
              recipient := recipientFor language
              created_at := now }
          { s with
              passengers := s.passengers.map (fun p =>
                if p.id == cid then
                  { p with scanned := true, qrError := false, qrData := some mockQRData }
                else p)
              showScanner := false
              currentScanId := Option.none
              scanLocked := false }

/-- The handleScanError handler of queue-qr-scanner.tsx. Note that it sets
qrError and clears scanned on the target but leaves the qrData field as it
was; the same falsy guard as in handleScanSuccess applies. -/
def handleScanError (s : ScannerState) : ScannerState :=
  match s.currentScanId with
  | Option.none => s
  | some cid =>
    if cid == 0 then s
    else
      { s with
          passengers := s.passengers.map (fun p =>
            if p.id == cid then { p with qrError := true, scanned := false } else p)
          showScanner := false
          currentScanId := Option.none
          scanLocked := false }

/-- Dismissing the scanner dialog: CashQRDialog receives
onOpenChange := setShowScanner, so an open-state change to false only writes
the showScanner flag and touches nothing else. -/
def dismissScanDialog (s : ScannerState) : ScannerState :=
  { s with showScanner := false }

/-- Observable outcome of an accept or reject attempt. -/
inductive DecisionResult
  | signaled (passengerId : Int)
  | invalidState
deriving DecidableEq, Repr

/-- The accept and reject buttons for a passenger id exist only inside the
render filter scanned and qrData present and not qrError, and are enabled
only when the disabled prop is false. -/
def decisionButtonsShown (s : ScannerState) (pid : Int) : Bool :=
  s.passengers.any (fun p => p.id == pid && (p.scanned && p.qrData.isSome && !p.qrError))

/-- The accept operation as exposed by the UI: handleAccept itself performs no
state mutation and unconditionally signals onAccept, but the click can only
happen for a passenger currently shown in the decision filter. -/
def accept (disabled : Bool) (s : ScannerState) (pid : Int) : ScannerState × DecisionResult :=
  if !disabled && decisionButtonsShown s pid then (s, DecisionResult.signaled pid)
  else (s, DecisionResult.invalidState)

/-- The reject operation as exposed by the UI, identical to accept except for
the outward signal it fires. -/
def reject (disabled : Bool) (s : ScannerState) (pid : Int) : ScannerState × DecisionResult :=
  if !disabled && decisionButtonsShown s pid then (s, DecisionResult.signaled pid)
  else (s, DecisionResult.invalidState)

/-- The operations of the scan protocol that mutate or could mutate the
component state, with the props each one reads. -/
inductive ScanOp
  | start (disabled : Bool)
  | resolveSuccess (language now : String)
  | resolveError
  | dismiss
  | acceptOp (disabled : Bool) (pid : Int)
  | rejectOp (disabled : Bool) (pid : Int)
deriving DecidableEq, Repr

/-- State effect of one operation. -/
def applyOp : ScanOp → ScannerState → ScannerState
  | ScanOp.start d, s => (startScan d s).1
  | ScanOp.resolveSuccess language now, s => handleScanSuccess language now s
  | ScanOp.resolveError, s => handleScanError s
  | ScanOp.dismiss, s => dismissScanDialog s
  | ScanOp.acceptOp d pid, s => (accept d s pid).1
  | ScanOp.rejectOp d pid, s => (reject d s pid).1

/-- State effect of a sequence of operations, applied left to right. -/
def applyOps (ops : List ScanOp) (s : ScannerState) : ScannerState :=
  ops.foldl (fun t op => applyOp op t) s

/-- Well-formedness of a scanner state: the qrData-iff-Scanned invariant for
every passenger, coherence of the lock flag with the active id, the active
passenger (if any) still pending, and unique passenger ids. -/
def Inv (s : ScannerState) : Prop :=
  (∀ p ∈ s.passengers, (p.qrData.isSome = true ↔ p.scanStatus = ScanStatus.Scanned)) ∧
  (s.scanLocked = true ↔ s.currentScanId.isSome = true) ∧
  (∀ p ∈ s.passengers, s.currentScanId = some p.id → p.scanStatus = ScanStatus.Pending) ∧
  (s.passengers.map QueuePassenger.id).Nodup

instance (s : ScannerState) : Decidable (Inv s) := by
  unfold Inv
  infer_instance

/-- Operations that resolve the scan session. -/
def isResolveOp : ScanOp → Bool
  | ScanOp.resolveSuccess _ _ => true
  | ScanOp.resolveError => true
  | _ => false

/-- Success outcome as carried by the scanning device according to the
specification: the payload that resolveScan is said to copy into qrData. -/
structure SuccessOutcome where
  sum : Int
  recipient : String
deriving DecidableEq, Repr

/-- Resolution entry point for a Success outcome. CashQRDialog wires
onConfirm to handleScanSuccess, a zero-argument callback, so the payload the
outcome carries is discarded by the component. -/
def resolveScanSuccess (_o : SuccessOutcome) (language now : String) (s : ScannerState) : ScannerState :=
  handleScanSuccess language now s

/-! Concrete states used by the counterexamples and witnesses below. -/

/-- A pending passenger whose id is the number 0. -/
def c1p0 : QueuePassenger :=
  { id := 0, name := "Z", queuePosition := 1, isFirst := true, count := 1,
    ticketCount := 1, orderNumber := 1, scanned := false, qrError := false,
    qrData := Option.none }

/-- Idle scanner state over the single passenger with id 0. -/
def c1s0 : ScannerState :=
  { passengers := [c1p0], showScanner := false, currentScanId := Option.none,
    scanLocked := false }

/-- The state produced by a successful scan start on c1s0. -/
def c1s1 : ScannerState :=
  { passengers := [c1p0], showScanner := true, currentScanId := some 0,
    scanLocked := true }

/-- A pending passenger with id 1. -/
def c1wp : QueuePassenger :=
  { id := 1, name := "W", queuePosition := 1, isFirst := true, count := 1,
    ticketCount := 1, orderNumber := 1, scanned := false, qrError := false,
    qrData := Option.none }

/-- A locked session targeting the passenger with id 1. -/
def c1ws : ScannerState :=
  { passengers := [c1wp], showScanner := true, currentScanId := some 1,
    scanLocked := true }

/-- The errored image of c1wp. -/
def c1werr : QueuePassenger :=
  { c1wp with qrError := true, scanned := false }

/-- A pending passenger observed by the dismissal scenario. -/
def c2p : QueuePassenger :=
  { id := 1, name := "D", queuePosition := 1, isFirst := true, count := 1,
    ticketCount := 1, orderNumber := 2, scanned := false, qrError := false,
    qrData := Option.none }

/-- A locked session with the dialog open, about to be dismissed. -/
def c2s : ScannerState :=
  { passengers := [c2p], showScanner := true, currentScanId := some 1,
    scanLocked := true }

/-- A pending passenger for the single-in-flight scenario. -/
def c3p : QueuePassenger :=
  { id := 1, name := "F", queuePosition := 1, isFirst := true, count := 1,
    ticketCount := 1, orderNumber := 3, scanned := false, qrError := false,
    qrData := Option.none }

/-- Idle state before the first scan start. -/
def c3s0 : ScannerState :=
  { passengers := [c3p], showScanner := false, currentScanId := Option.none,
    scanLocked := false }

/-- Locked state after the first scan start. -/
def c3s1 : ScannerState :=
  { passengers := [c3p], showScanner := true, currentScanId := some 1,
    scanLocked := true }

/-- Pending passenger listed first but holding queue position 2. -/
def c4pA : QueuePassenger :=
  { id := 1, name := "A", queuePosition := 2, isFirst := false, count := 1,
    ticketCount := 1, orderNumber := 4, scanned := false, qrError := false,
    qrData := Option.none }

/-- Pending passenger listed second but holding queue position 1. -/
def c4pB : QueuePassenger :=
  { id := 2, name := "B", queuePosition := 1, isFirst := true, count := 1,
    ticketCount := 1, orderNumber := 5, scanned := false, qrError := false,
    qrData := Option.none }

/-- A passenger list that is not sorted by queue position. -/
def c4s0 : ScannerState :=
  { passengers := [c4pA, c4pB], showScanner := false, currentScanId := Option.none,
    scanLocked := false }

/-- Errored passenger at queue position 1. -/
def c4wErr : QueuePassenger :=
  { id := 1, name := "E", queuePosition := 1, isFirst := true, count := 1,
    ticketCount := 1, orderNumber := 6, scanned := false, qrError := true,
    qrData := Option.none }

/-- Pending passenger at queue position 2. -/
def c4wPend : QueuePassenger :=
  { id := 2, name := "P", queuePosition := 2, isFirst := false, count := 1,
    ticketCount := 1, orderNumber := 7, scanned := false, qrError := false,
    qrData := Option.none }

/-- Sorted list with an errored head: scenario B of the specification. -/
def c4ws0 : ScannerState :=
  { passengers := [c4wErr, c4wPend], showScanner := false,
    currentScanId := Option.none, scanLocked := false }

/-- The state produced by the scan start on c4ws0. -/
def c4ws1 : ScannerState :=
  { passengers := [c4wErr, c4wPend], showScanner := true,
    currentScanId := some 2, scanLocked := true }

/-- A pending passenger against which accept and reject are attempted. -/
def c5p : QueuePassenger :=
  { id := 1, name := "C", queuePosition := 1, isFirst := true, count := 1,
    ticketCount := 1, orderNumber := 8, scanned := false, qrError := false,
    qrData := Option.none }

/-- Idle state over the single pending passenger. -/
def c5s : ScannerState :=
  { passengers := [c5p], showScanner := false, currentScanId := Option.none,
    scanLocked := false }

/-- A locked session whose target passenger has been removed from the list. -/
def c6s : ScannerState :=
  { passengers := [], showScanner := true, currentScanId := some 1,
    scanLocked := true }

/-- Pending passenger with ticketCount 2, as in scenario A. -/
def c8p : QueuePassenger :=
  { id := 1, name := "S", queuePosition := 1, isFirst := true, count := 2,
    ticketCount := 2, orderNumber := 9, scanned := false, qrError := false,
    qrData := Option.none }

/-- Locked session targeting the scenario A passenger. -/
def c8s : ScannerState :=
  { passengers := [c8p], showScanner := true, currentScanId := some 1,
    scanLocked := true }

/-- Payment payload computed by the component for c8p in English locale. -/
def c8qr : QRData :=
  { sum := 640, recipient := "Driver Ivanov I.", created_at := "T1" }

/-- The scanned image of c8p produced by a Success resolution. -/
def c8wq : QueuePassenger :=
  { c8p with scanned := true, qrError := false, qrData := some c8qr }

/-- Untargeted passenger for the frame scenario. -/
def c10p1 : QueuePassenger :=
  { id := 1, name := "K", queuePosition := 1, isFirst := true, count := 1,
    ticketCount := 1, orderNumber := 10, scanned := false, qrError := false,
    qrData := Option.none }

/-- Targeted passenger for the frame scenario. -/
def c10p2 : QueuePassenger :=
  { id := 2, name := "L", queuePosition := 2, isFirst := false, count := 1,
    ticketCount := 1, orderNumber := 11, scanned := false, qrError := false,
    qrData := Option.none }

/-- Locked session targeting the second of two passengers. -/
def c10s : ScannerState :=
  { passengers := [c10p1, c10p2], showScanner := true, currentScanId := some 2,
    scanLocked := true }

/-! Helper lemmas about the embedding. -/

theorem scanStatus_scanned_iff (p : QueuePassenger) :
    p.scanStatus = ScanStatus.Scanned ↔ (p.qrError = false ∧ p.scanned = true) := by
  unfold QueuePassenger.scanStatus
  cases hq : p.qrError <;> cases hs : p.scanned <;> simp

theorem scanStatus_pending_iff (p : QueuePassenger) :
    p.scanStatus = ScanStatus.Pending ↔ (p.qrError = false ∧ p.scanned = false) := by
  unfold QueuePassenger.scanStatus
  cases hq : p.qrError <;> cases hs : p.scanned <;> simp

theorem isNextScannable_iff (p : QueuePassenger) :
    isNextScannable p = true ↔ p.scanStatus = ScanStatus.Pending := by
  rw [scanStatus_pending_iff]
  unfold isNextScannable
  constructor
  · intro h
    simp only [Bool.and_eq_true, Bool.not_eq_true'] at h
    exact ⟨h.2, h.1⟩
  · intro h
    simp [h.1, h.2]

theorem pending_ne_scanned : ScanStatus.Pending ≠ ScanStatus.Scanned := by decide

theorem qrData_none_of_not_scanned (p : QueuePassenger)
    (h1 : p.qrData.isSome = true ↔ p.scanStatus = ScanStatus.Scanned)
    (h2 : p.scanStatus ≠ ScanStatus.Scanned) : p.qrData = Option.none := by
  cases hq : p.qrData with
  | none => rfl
  | some d => exact absurd (h1.mp (by rw [hq]; rfl)) h2

theorem nodup_ids_of_map (l : List QueuePassenger) (f : QueuePassenger → QueuePassenger)
    (hf : ∀ p, (f p).id = p.id) (h : (l.map QueuePassenger.id).Nodup) :
    ((l.map f).map QueuePassenger.id).Nodup := by
  rw [List.map_map]
  have he : QueuePassenger.id ∘ f = QueuePassenger.id := funext hf
  rw [he]
  exact h

theorem find_first_pending_min (l : List QueuePassenger)
    (hs : l.Pairwise (fun a b => a.queuePosition ≤ b.queuePosition))
    (p : QueuePassenger) (hf : l.find? isNextScannable = some p) :
    ∀ q ∈ l, isNextScannable q = true → p.queuePosition ≤ q.queuePosition := by
  induction l with
  | nil => cases hf
  | cons a t ih =>
    cases hspl : isNextScannable a with
    | true =>
      have hpa : p = a := by
        rw [List.find?_cons_of_pos _ hspl] at hf
        injection hf with h
        exact h.symm
      subst hpa
      intro q hq hqp
      rcases List.mem_cons.mp hq with h | h
      · rw [h]
      · exact (List.pairwise_cons.mp hs).1 q h
    | false =>
      rw [List.find?_cons_of_neg _ (by simp [hspl])] at hf
      have hmin := ih (List.pairwise_cons.mp hs).2 hf
      intro q hq hqp
      rcases List.mem_cons.mp hq with h | h
      · rw [h] at hqp
        rw [hspl] at hqp
        cases hqp
      · exact hmin q h hqp

theorem accept_fst (d : Bool) (s : ScannerState) (pid : Int) : (accept d s pid).1 = s := by
  unfold accept
  split <;> rfl

theorem reject_fst (d : Bool) (s : ScannerState) (pid : Int) : (reject d s pid).1 = s := by
  unfold reject
  split <;> rfl

theorem startScan_blocked_of_locked (d : Bool) (s : ScannerState)
    (h : s.scanLocked = true) : startScan d s = (s, StartScanResult.blockedUi) := by
  unfold startScan scanButtonAvailable
  rw [h]
  simp

theorem handleScanError_eq (s : ScannerState) (cid : Int)
    (hc : s.currentScanId = some cid) (h0 : cid ≠ 0) :
    handleScanError s =
      { s with
          passengers := s.passengers.map (fun p =>
            if p.id == cid then { p with qrError := true, scanned := false } else p)
          showScanner := false
          currentScanId := Option.none
          scanLocked := false } := by
  unfold handleScanError
  split
  · next heq => rw [hc] at heq; cases heq
  · next cid' heq =>
    rw [hc] at heq
    injection heq with h
    subst h
    rw [if_neg (by simp [h0])]

theorem handleScanSuccess_eq (language now : String) (s : ScannerState) (cid : Int)
    (passenger : QueuePassenger)
    (hc : s.currentScanId = some cid) (h0 : cid ≠ 0)
    (hf : s.passengers.find? (fun p => p.id == cid) = some passenger) :
    handleScanSuccess language now s =
      { s with
          passengers := s.passengers.map (fun p =>
            if p.id == cid then
              { p with scanned := true, qrError := false,
                       qrData := some { sum := passenger.ticketCount * 320
                                        recipient := recipientFor language
                                        created_at := now } }
            else p)
          showScanner := false
          currentScanId := Option.none
          scanLocked := false } := by
  unfold handleScanSuccess
  split
  · next heq => rw [hc] at heq; cases heq
  · next cid' heq =>
    rw [hc] at heq
    injection heq with h
    subst h
    rw [if_neg (by simp [h0])]
    split
    · next heq2 => rw [hf] at heq2; cases heq2
    · next passenger' heq2 =>
      rw [hf] at heq2
      injection heq2 with h2
      subst h2
      rfl

theorem inv_success_state (s : ScannerState) (cid : Int) (qr : QRData) (h : Inv s) :
    Inv { s with
            passengers := s.passengers.map (fun p =>
              if p.id == cid then
                { p with scanned := true, qrError := false, qrData := some qr }
              else p)
            showScanner := false
            currentScanId := Option.none
            scanLocked := false } := by
  obtain ⟨h1, h2, h3, h4⟩ := h
  refine ⟨?_, by simp, ?_, ?_⟩
  · intro q hq
    obtain ⟨r, hr, hfr⟩ := List.mem_map.mp hq
    by_cases hrc : (r.id == cid) = true
    · rw [if_pos hrc] at hfr
      rw [← hfr]
      simp [QueuePassenger.scanStatus]
    · rw [if_neg hrc] at hfr
      rw [← hfr]
      exact h1 r hr
  · intro q hq hcontra
    simp at hcontra
  · exact nodup_ids_of_map _ _
      (fun p => by by_cases hpc : (p.id == cid) = true <;> simp [hpc]) h4

theorem inv_error_state (s : ScannerState) (cid : Int) (h : Inv s)
    (hc : s.currentScanId = some cid) :
    Inv { s with
            passengers := s.passengers.map (fun p =>
              if p.id == cid then { p with qrError := true, scanned := false } else p)
            showScanner := false
            currentScanId := Option.none
            scanLocked := false } := by
  obtain ⟨h1, h2, h3, h4⟩ := h
  refine ⟨?_, by simp, ?_, ?_⟩
  · intro q hq
    obtain ⟨r, hr, hfr⟩ := List.mem_map.mp hq
    by_cases hrc : (r.id == cid) = true
    · have hrpend : r.scanStatus = ScanStatus.Pending := by
        apply h3 r hr
        rw [hc, eq_of_beq hrc]
      have hrnone : r.qrData = Option.none :=
        qrData_none_of_not_scanned r (h1 r hr)
          (fun hcon => pending_ne_scanned (hrpend.symm.trans hcon))
      rw [if_pos hrc] at hfr
      rw [← hfr]
      simp [QueuePassenger.scanStatus, hrnone]
    · rw [if_neg hrc] at hfr
      rw [← hfr]
      exact h1 r hr
  · intro q hq hcontra
    simp at hcontra
  · exact nodup_ids_of_map _ _
      (fun p => by by_cases hpc : (p.id == cid) = true <;> simp [hpc]) h4

theorem inv_handleScanSuccess (language now : String) (s : ScannerState) (h : Inv s) :
    Inv (handleScanSuccess language now s) := by
  cases hc : s.currentScanId with
  | none =>
    have he : handleScanSuccess language now s = s := by
      unfold handleScanSuccess
      split
      · rfl
      · next cid' heq => rw [hc] at heq; cases heq
    rw [he]; exact h
  | some cid =>
    by_cases h0 : cid = 0
    · subst h0
      have he : handleScanSuccess language now s = s := by
        unfold handleScanSuccess
        split
        · rfl
        · next cid' heq =>
          rw [hc] at heq
          injection heq with hh
          subst hh
          rw [if_pos (by decide)]
      rw [he]; exact h
    · cases hf : s.passengers.find? (fun p => p.id == cid) with
      | none =>
        have he : handleScanSuccess language now s = s := by
          unfold handleScanSuccess
          split
          · rfl
          · next cid' heq =>
            rw [hc] at heq
            injection heq with hh
            subst hh
            rw [if_neg (by simp [h0])]
            split
            · rfl
            · next q heq2 => rw [hf] at heq2; cases heq2
        rw [he]; exact h
      | some passenger =>
        rw [handleScanSuccess_eq language now s cid passenger hc h0 hf]
        exact inv_success_state s cid _ h

theorem inv_handleScanError (s : ScannerState) (h : Inv s) :
    Inv (handleScanError s) := by
  cases hc : s.currentScanId with
  | none =>
    have he : handleScanError s = s := by
      unfold handleScanError
      split
      · rfl
      · next cid' heq => rw [hc] at heq; cases heq
    rw [he]; exact h
  | some cid =>
    by_cases h0 : cid = 0
    · subst h0
      have he : handleScanError s = s := by
        unfold handleScanError
        split
        · rfl
        · next cid' heq =>
          rw [hc] at heq
          injection heq with hh
          subst hh
          rw [if_pos (by decide)]
      rw [he]; exact h
    · rw [handleScanError_eq s cid hc h0]
      exact inv_error_state s cid h hc

theorem inv_startScan (d : Bool) (s : ScannerState) (h : Inv s) : Inv (startScan d s).1 := by
  obtain ⟨h1, h2, h3, h4⟩ := h
  unfold startScan handleStartScan
  split
  · split
    · exact ⟨h1, h2, h3, h4⟩
    · split
      · exact ⟨h1, h2, h3, h4⟩
      · next p hf =>
        refine ⟨h1, by simp, ?_, h4⟩
        intro q hq hcid
        have hid : p.id = q.id := by
          injection hcid
        have hqp : q = p :=
          List.inj_on_of_nodup_map h4 hq (List.mem_of_find?_eq_some hf) hid.symm
        rw [hqp]
        exact (isNextScannable_iff p).mp (List.find?_some hf)
  · exact ⟨h1, h2, h3, h4⟩

theorem inv_applyOp (op : ScanOp) (s : ScannerState) (h : Inv s) : Inv (applyOp op s) := by
  cases op with
  | start d => exact inv_startScan d s h
  | resolveSuccess language now => exact inv_handleScanSuccess language now s h
  | resolveError => exact inv_handleScanError s h
  | dismiss => exact h
  | acceptOp d pid =>
    show Inv (accept d s pid).1
    rw [accept_fst]
    exact h
  | rejectOp d pid =>
    show Inv (reject d s pid).1
    rw [reject_fst]
    exact h

theorem inv_applyOps (ops : List ScanOp) (s : ScannerState) (h : Inv s) :
    Inv (applyOps ops s) := by
  induction ops generalizing s with
  | nil => exact h
  | cons op t ih => exact ih (applyOp op s) (inv_applyOp op s h)

theorem lock_persists_op (op : ScanOp) (s : ScannerState)
    (hop : isResolveOp op = false) (h : s.scanLocked = true) :
    (applyOp op s).scanLocked = true := by
  cases op with
  | start d =>
    show ((startScan d s).1).scanLocked = true
    rw [startScan_blocked_of_locked d s h]
    exact h
  | resolveSuccess language now => simp [isResolveOp] at hop
  | resolveError => simp [isResolveOp] at hop
  | dismiss => exact h
  | acceptOp d pid =>
    show ((accept d s pid).1).scanLocked = true
    rw [accept_fst]
    exact h
  | rejectOp d pid =>
    show ((reject d s pid).1).scanLocked = true
    rw [reject_fst]
    exact h

theorem lock_persists_ops (ops : List ScanOp) (s : ScannerState)
    (hops : ∀ op ∈ ops, isResolveOp op = false) (h : s.scanLocked = true) :
    (applyOps ops s).scanLocked = true := by
  induction ops generalizing s with
  | nil => exact h
  | cons op t ih =>
    exact ih (applyOp op s)
      (fun o ho => hops o (List.mem_cons_of_mem op ho))
      (lock_persists_op op s (hops op (List.mem_cons_self op t)) h)

theorem toRaceState_none (s : String) (h : TRIP_STATUS_TO_RACE_STATE s = Option.none) :
    toRaceState s = Except.error AdapterError.unknownStatus := by
  unfold toRaceState
  split
  · next r heq => rw [h] at heq; cases heq
  · rfl

theorem toRaceState_some (s : String) (r : RaceState)
    (h : TRIP_STATUS_TO_RACE_STATE s = some r) : toRaceState s = Except.ok r := by
  unfold toRaceState
  split
  · next r' heq =>
    rw [h] at heq
    injection heq with hh
    rw [hh]
  · next heq => rw [h] at heq; cases heq

theorem trip_lookup_isSome_iff (s : String) :
    (TRIP_STATUS_TO_RACE_STATE s).isSome = true ↔ s ∈ legacyVocabulary := by
  unfold TRIP_STATUS_TO_RACE_STATE
  split <;> simp_all [legacyVocabulary]

theorem startScan_started_inv (d : Bool) (s s' : ScannerState) (pid : Int)
    (h : startScan d s = (s', StartScanResult.started pid)) :
    scanButtonAvailable d s = true ∧
    ∃ p, s.passengers.find? isNextScannable = some p ∧ pid = p.id ∧
      s' = { s with currentScanId := some p.id, scanLocked := true, showScanner := true } := by
  unfold startScan at h
  split at h
  · next hb =>
    unfold handleStartScan at h
    split at h
    · injection h with h1 h2
      cases h2
    · split at h
      · injection h with h1 h2
        cases h2
      · next p hf =>
        injection h with h1 h2
        injection h2 with h3
        exact ⟨hb, p, hf, h3.symm, h1.symm⟩
  · injection h with h1 h2
    cases h2

/-! Claim theorems. -/

/-- Claim C1, counterexample: a session started on the passenger with id 0 is
an active locked session, yet resolving it with a Failure outcome is a no-op
because of the falsy guard in handleScanError: the target stays Pending and
the session stays locked, contradicting the claim that the target always
becomes Error. -/
theorem c1_counterexample :
    startScan false c1s0 = (c1s1, StartScanResult.started 0) ∧
    c1s1.scanLocked = true ∧ c1s1.currentScanId = some 0 ∧
    handleScanError c1s1 = c1s1 ∧
    c1p0.scanStatus = ScanStatus.Pending := by decide

/-- Claim C1, amended: starting from a well-formed state, the
qrData-present-iff-Scanned invariant holds after every sequence of scan
operations; and resolving an active session with a Failure outcome marks the
target passenger as Error with no qrData, provided the target id is nonzero
(id 0 trips the falsy guard of handleScanError and nothing changes). -/
theorem c1_qr_invariant_and_failure_marks_error (s0 : ScannerState) (h : Inv s0) :
    (∀ ops : List ScanOp, ∀ p ∈ (applyOps ops s0).passengers,
        (p.qrData.isSome = true ↔ p.scanStatus = ScanStatus.Scanned)) ∧
    (∀ cid : Int, s0.scanLocked = true → s0.currentScanId = some cid → cid ≠ 0 →
        ∀ p ∈ (handleScanError s0).passengers, p.id = cid →
          p.scanStatus = ScanStatus.Error ∧ p.qrData = Option.none) := by
  constructor
  · intro ops p hp
    exact (inv_applyOps ops s0 h).1 p hp
  · intro cid hlock hcid h0 p hp hpid
    obtain ⟨h1, h2, h3, h4⟩ := h
    rw [handleScanError_eq s0 cid hcid h0] at hp
    obtain ⟨r, hr, hfr⟩ := List.mem_map.mp hp
    by_cases hrc : (r.id == cid) = true
    · have hrpend : r.scanStatus = ScanStatus.Pending := by
        apply h3 r hr
        rw [hcid, eq_of_beq hrc]
      have hrnone : r.qrData = Option.none :=
        qrData_none_of_not_scanned r (h1 r hr)
          (fun hcon => pending_ne_scanned (hrpend.symm.trans hcon))
      rw [if_pos hrc] at hfr
      rw [← hfr]
      constructor
      · simp [QueuePassenger.scanStatus]
      · exact hrnone
    · rw [if_neg hrc] at hfr
      rw [← hfr] at hpid
      rw [hpid] at hrc
      exact absurd (beq_self_eq_true cid) hrc

/-- Claim C1, witness: the amended theorem applied to a locked session on the
pending passenger with id 1 shows that the Failure resolution leaves that
passenger in Error status with no qrData. -/
theorem c1_witness : c1werr.scanStatus = ScanStatus.Error ∧ c1werr.qrData = Option.none :=
  (c1_qr_invariant_and_failure_marks_error c1ws (by decide)).2 1 (by decide) (by decide)
    (by decide) c1werr (by decide) (by decide)

/-- Claim C2: dismissing the scan dialog routes through
onOpenChange := setShowScanner, which only clears the showScanner flag: the
session lock and the active passenger id survive the dismissal, so the claim
that dismissal releases the lock is false on the code. -/
theorem c2_dismiss_leaves_lock :
    dismissScanDialog c2s =
      { passengers := [c2p], showScanner := false, currentScanId := some 1,
        scanLocked := true } ∧
    (dismissScanDialog c2s).scanLocked = true ∧
    (dismissScanDialog c2s).currentScanId = some 1 := by decide

/-- Claim C3: once startScan has succeeded the session is locked, and through
any further sequence of non-resolving operations (including dismissals,
accepts and rejects) every later startScan returns blocked and leaves the
state unchanged. -/
theorem c3_single_inflight_scan (d : Bool) (s s' : ScannerState) (pid : Int)
    (h : startScan d s = (s', StartScanResult.started pid))
    (ops : List ScanOp) (hops : ∀ op ∈ ops, isResolveOp op = false) :
    (applyOps ops s').scanLocked = true ∧
    ∀ d2, startScan d2 (applyOps ops s') = (applyOps ops s', StartScanResult.blockedUi) := by
  obtain ⟨-, p, -, -, hs'⟩ := startScan_started_inv d s s' pid h
  have hlock : s'.scanLocked = true := by rw [hs']
  have hlater := lock_persists_ops ops s' hops hlock
  exact ⟨hlater, fun d2 => startScan_blocked_of_locked d2 _ hlater⟩

/-- Claim C3, witness: after the scan start on the single pending passenger
succeeds, a dismissal does not unlock, and a further startScan is blocked. -/
theorem c3_witness :
    (applyOps [ScanOp.dismiss] c3s1).scanLocked = true ∧
    ∀ d2, startScan d2 (applyOps [ScanOp.dismiss] c3s1) =
      (applyOps [ScanOp.dismiss] c3s1, StartScanResult.blockedUi) :=
  c3_single_inflight_scan false c3s0 c3s1 1 (by decide) [ScanOp.dismiss] (by decide)

/-- Claim C4, counterexample: on a passenger list that is not sorted by
queuePosition, startScan picks the first Pending passenger in list order
(id 1 at position 2), not the Pending passenger with the minimum
queuePosition (id 2 at position 1), so the claim as stated is false. -/
theorem c4_counterexample :
    (startScan false c4s0).2 = StartScanResult.started 1 ∧
    c4pA.id = 1 ∧ c4pA.queuePosition = 2 ∧
    c4pB.scanStatus = ScanStatus.Pending ∧ c4pB.queuePosition = 1 := by decide

/-- Claim C4, amended: startScan selects the first Pending passenger in list
order, skipping Scanned and Error entries; when the list is sorted by
queuePosition this is the Pending passenger of minimum queuePosition. -/
theorem c4_sorted_selects_min_pending (d : Bool) (s s' : ScannerState) (pid : Int)
    (hsorted : s.passengers.Pairwise (fun a b => a.queuePosition ≤ b.queuePosition))
    (h : startScan d s = (s', StartScanResult.started pid)) :
    ∃ p ∈ s.passengers, p.id = pid ∧ p.scanStatus = ScanStatus.Pending ∧
      ∀ q ∈ s.passengers, q.scanStatus = ScanStatus.Pending →
        p.queuePosition ≤ q.queuePosition := by
  obtain ⟨-, p, hf, hpid, -⟩ := startScan_started_inv d s s' pid h
  refine ⟨p, List.mem_of_find?_eq_some hf, hpid.symm,
    (isNextScannable_iff p).mp (List.find?_some hf), ?_⟩
  intro q hq hqp
  exact find_first_pending_min s.passengers hsorted p hf q hq ((isNextScannable_iff q).mpr hqp)

/-- Claim C4, witness: scenario B of the specification, with the list sorted
by position: position 1 holds an Error passenger, position 2 a Pending one;
the amended theorem yields the Pending passenger with id 2 as the selected
minimum. -/
theorem c4_witness :
    ∃ p ∈ c4ws0.passengers, p.id = 2 ∧ p.scanStatus = ScanStatus.Pending ∧
      ∀ q ∈ c4ws0.passengers, q.scanStatus = ScanStatus.Pending →
        p.queuePosition ≤ q.queuePosition :=
  c4_sorted_selects_min_pending false c4ws0 c4ws1 2 (by decide) (by decide)

/-- Claim C5: accept and reject on the id of a passenger whose status is not
Scanned are refused: the decision buttons for that id are not rendered, no
outward signal fires, and the state is returned unchanged. -/
theorem c5_accept_reject_invalid_state (d : Bool) (s : ScannerState) (p : QueuePassenger)
    (hmem : p ∈ s.passengers)
    (hnodup : (s.passengers.map QueuePassenger.id).Nodup)
    (hstatus : p.scanStatus ≠ ScanStatus.Scanned) :
    accept d s p.id = (s, DecisionResult.invalidState) ∧
    reject d s p.id = (s, DecisionResult.invalidState) := by
  have hshown : decisionButtonsShown s p.id = false := by
    unfold decisionButtonsShown
    rw [List.any_eq_false]
    intro q hq
    by_cases hqe : (q.id == p.id) = true
    · have hqp : q = p :=
        List.inj_on_of_nodup_map hnodup hq hmem (eq_of_beq hqe)
      subst hqp
      cases hA : q.scanned with
      | false => simp [hA]
      | true =>
        cases hB : q.qrError with
        | true => simp [hB]
        | false => exact absurd ((scanStatus_scanned_iff q).mpr ⟨hB, hA⟩) hstatus
    · simp [hqe]
  constructor
  · unfold accept
    rw [hshown]
    simp
  · unfold reject
    rw [hshown]
    simp

/-- Claim C5, witness: accept and reject on the single Pending passenger are
refused with no mutation. -/
theorem c5_witness :
    accept false c5s 1 = (c5s, DecisionResult.invalidState) ∧
    reject false c5s 1 = (c5s, DecisionResult.invalidState) := by
  have h := c5_accept_reject_invalid_state false c5s c5p (by decide) (by decide) (by decide)
  exact h

/-- Claim C6: with an active locked session whose target passenger is no
longer in the list, a Success resolution returns early and leaves the
session locked and the dialog open, contradicting the claim that resolution
releases the lock unconditionally; the Failure resolution on the same state
does release it. -/
theorem c6_missing_target_keeps_lock :
    handleScanSuccess "en" "2026-01-01T00:00:00.000Z" c6s = c6s ∧
    c6s.scanLocked = true ∧ c6s.currentScanId = some 1 ∧ c6s.passengers = [] ∧
    (handleScanError c6s).scanLocked = false := by decide

/-- Claim C7: the trip-status adapter is total on the six legacy strings and
fails with UnknownStatus exactly outside that vocabulary; the six known
strings map to their documented race states. -/
theorem c7_adapter_total_on_vocabulary :
    (∀ s : String,
      ((∃ r, toRaceState s = Except.ok r) ↔ s ∈ legacyVocabulary) ∧
      (toRaceState s = Except.error AdapterError.unknownStatus ↔ s ∉ legacyVocabulary)) ∧
    toRaceState "PREP_IDLE" = Except.ok RaceState.RACE_OFFLINE ∧
    toRaceState "PREP_TIMER" = Except.ok RaceState.RACE_WAITING_START ∧
    toRaceState "BOARDING" = Except.ok RaceState.RACE_BOARDING ∧
    toRaceState "ROUTE_READY" = Except.ok RaceState.RACE_ARRIVED_STOP ∧
    toRaceState "IN_ROUTE" = Except.ok RaceState.RACE_IN_TRANSIT ∧
    toRaceState "FINISHED" = Except.ok RaceState.RACE_FINISHED := by
  refine ⟨?_, rfl, rfl, rfl, rfl, rfl, rfl⟩
  intro s
  cases hl : TRIP_STATUS_TO_RACE_STATE s with
  | none =>
    have hmem : ¬ s ∈ legacyVocabulary := by
      intro hm
      have hs := (trip_lookup_isSome_iff s).mpr hm
      rw [hl] at hs
      cases hs
    constructor
    · constructor
      · rintro ⟨r, hr⟩
        rw [toRaceState_none s hl] at hr
        cases hr
      · intro hm
        exact absurd hm hmem
    · constructor
      · intro _
        exact hmem
      · intro _
        exact toRaceState_none s hl
  | some r =>
    have hmem : s ∈ legacyVocabulary := by
      apply (trip_lookup_isSome_iff s).mp
      rw [hl]
      rfl
    constructor
    · constructor
      · intro _
        exact hmem
      · intro _
        exact ⟨r, toRaceState_some s r hl⟩
    · constructor
      · intro he
        rw [toRaceState_some s r hl] at he
        cases he
      · intro hnot
        exact absurd hmem hnot

/-- Claim C8, counterexample: resolving with a Success outcome carrying
sum 999 on the locked session over the ticketCount 2 passenger produces
qrData with sum 640 (ticketCount times 320): the component discards the
payload the outcome carries, so the claim that qrData echoes the outcome
values is false. -/
theorem c8_counterexample :
    (resolveScanSuccess { sum := 999, recipient := "X" } "en" "T0" c8s).passengers.map
        (fun p => p.qrData.map QRData.sum) = [some 640] ∧
    ¬ ((640 : Int) = 999) := by decide

/-- Claim C8, amended: on a Success resolution of an active session with a
nonzero target id and the target present, the target becomes Scanned and
receives qrData with sum equal to its ticketCount times 320, the fixed
language-dependent recipient string, and created_at equal to the current
time; the payload carried by the outcome plays no role, and the session
unlocks. -/
theorem c8_success_attaches_computed_qrdata (o : SuccessOutcome) (language now : String)
    (s : ScannerState) (cid : Int) (passenger : QueuePassenger)
    (_hlock : s.scanLocked = true) (hcid : s.currentScanId = some cid) (h0 : cid ≠ 0)
    (hfind : s.passengers.find? (fun q => q.id == cid) = some passenger) :
    (∀ q ∈ (resolveScanSuccess o language now s).passengers, q.id = cid →
        q.scanStatus = ScanStatus.Scanned ∧
        q.qrData = some { sum := passenger.ticketCount * 320
                          recipient := recipientFor language
                          created_at := now }) ∧
    (resolveScanSuccess o language now s).scanLocked = false ∧
    (resolveScanSuccess o language now s).currentScanId = Option.none := by
  have he : resolveScanSuccess o language now s = handleScanSuccess language now s := rfl
  rw [he, handleScanSuccess_eq language now s cid passenger hcid h0 hfind]
  refine ⟨?_, rfl, rfl⟩
  intro q hq hqid
  obtain ⟨r, hr, hfr⟩ := List.mem_map.mp hq
  by_cases hrc : (r.id == cid) = true
  · rw [if_pos hrc] at hfr
    rw [← hfr]
    constructor
    · simp [QueuePassenger.scanStatus]
    · rfl
  · rw [if_neg hrc] at hfr
    rw [← hfr] at hqid
    rw [hqid] at hrc
    exact absurd (beq_self_eq_true cid) hrc

/-- Claim C8, witness: scenario A with the amount the specification lists:
the ticketCount 2 passenger becomes Scanned with qrData sum 640 and the
computed recipient, and the session unlocks. -/
theorem c8_witness :
    c8wq.scanStatus = ScanStatus.Scanned ∧
    c8wq.qrData = some { sum := c8p.ticketCount * 320
                         recipient := recipientFor "en"
                         created_at := "T1" } :=
  (c8_success_attaches_computed_qrdata { sum := 640, recipient := "Driver X" } "en" "T1"
    c8s 1 c8p (by decide) (by decide) (by decide) (by decide)).1 c8wq (by decide) (by decide)

/-- Claim C9: for every race state the button table yields a defined config
whose action is one of the six non-none actions, and the panel table yields a
defined config. -/
theorem c9_tables_total_nonnone :
    ∀ st : RaceState,
      (∃ b, RACE_STATE_TO_BUTTON st = b ∧ b.action ∈ nonNoneActions) ∧
      (∃ pv, RACE_STATE_TO_PANELS st = pv) := by
  intro st
  refine ⟨⟨RACE_STATE_TO_BUTTON st, rfl, ?_⟩, ⟨RACE_STATE_TO_PANELS st, rfl⟩⟩
  cases st <;> decide

/-- Claim C10: with an active locked session, both resolutions preserve the
length of the passenger list and leave every entry whose id differs from the
session target unchanged at its position. -/
theorem c10_resolve_frame (s : ScannerState) (cid : Int) (language now : String)
    (_hlock : s.scanLocked = true) (hcid : s.currentScanId = some cid) :
    ((handleScanSuccess language now s).passengers.length = s.passengers.length ∧
      ∀ i : Nat, ∀ p : QueuePassenger, s.passengers[i]? = some p → p.id ≠ cid →
        (handleScanSuccess language now s).passengers[i]? = some p) ∧
    ((handleScanError s).passengers.length = s.passengers.length ∧
      ∀ i : Nat, ∀ p : QueuePassenger, s.passengers[i]? = some p → p.id ≠ cid →
        (handleScanError s).passengers[i]? = some p) := by
  constructor
  · unfold handleScanSuccess
    split
    · exact ⟨rfl, fun i p hp _ => hp⟩
    · next cid' heq =>
      rw [hcid] at heq
      injection heq with hh
      subst hh
      split
      · exact ⟨rfl, fun i p hp _ => hp⟩
      · split
        · exact ⟨rfl, fun i p hp _ => hp⟩
        · next passenger hf =>
          refine ⟨by simp, ?_⟩
          intro i p hp hne
          show (s.passengers.map _)[i]? = some p
          rw [List.getElem?_map, hp]
          simp [hne]
  · unfold handleScanError
    split
    · exact ⟨rfl, fun i p hp _ => hp⟩
    · next cid' heq =>
      rw [hcid] at heq
      injection heq with hh
      subst hh
      split
      · exact ⟨rfl, fun i p hp _ => hp⟩
      · refine ⟨by simp, ?_⟩
        intro i p hp hne
        show (s.passengers.map _)[i]? = some p
        rw [List.getElem?_map, hp]
        simp [hne]

/-- Claim C10, witness: in the two-passenger state with the session targeting
id 2, both resolutions keep the untargeted passenger with id 1 at index 0. -/
theorem c10_witness :
    (handleScanSuccess "en" "T2" c10s).passengers[0]? = some c10p1 ∧
    (handleScanError c10s).passengers[0]? = some c10p1 :=
  ⟨(c10_resolve_frame c10s 2 "en" "T2" (by decide) (by decide)).1.2 0 c10p1 (by decide)
      (by decide),
   (c10_resolve_frame c10s 2 "en" "T2" (by decide) (by decide)).2.2 0 c10p1 (by decide)
      (by decide)⟩

end DriverApp
